import Mathlib

/-!
Shallow embedding of the control-hub client agent (`src/main.py`) and
verification of its specification claims.

The embedding covers:
* `ExecutionTracker` (the spec's "Execution Ledger"), lines 164-186;
* the event handler `handle_execution`, lines 220-232;
* the dispatch pipeline `process_execution`, lines 234-263, modelled over an
  environment saying which backend writes raise;
* the sandboxed runner `_run_in_process`, lines 74-118, modelled over an
  abstract child-process outcome;
* the shutdown `finally` block of `run`, lines 282-294.

Identifiers are `Option String`: Python's `execution.get("id")` yields the
string id or `None` when the key is absent.
-/

abbrev ExecId := Option String

/-- The Execution Ledger (`ExecutionTracker`, main.py lines 164-186):
two in-memory sets of execution identifiers. -/
structure ExecutionTracker where
  executed_tasks : Finset ExecId
  active_executions : Finset ExecId
  deriving DecidableEq

namespace ExecutionTracker

/-- `is_executed` (line 169-170): membership test in `executed_tasks`. -/
def is_executed (t : ExecutionTracker) (execution_id : ExecId) : Bool :=
  decide (execution_id ∈ t.executed_tasks)

/-- `mark_executed` (line 172-173): insert into `executed_tasks`. -/
def mark_executed (t : ExecutionTracker) (execution_id : ExecId) : ExecutionTracker :=
  ExecutionTracker.mk (insert execution_id t.executed_tasks) t.active_executions

/-- `add_active` (lines 175-178): record emptiness of `active_executions`
before the insertion, insert, and return that `was_empty` flag. -/
def add_active (t : ExecutionTracker) (execution_id : ExecId) :
    Bool × ExecutionTracker :=
  (decide (t.active_executions.card = 0),
   ExecutionTracker.mk t.executed_tasks (insert execution_id t.active_executions))

/-- `remove_active` (lines 180-183): remove `execution_id` from
`active_executions` when present (no-op otherwise), then return whether the
set is empty after the removal. -/
def remove_active (t : ExecutionTracker) (execution_id : ExecId) :
    Bool × ExecutionTracker :=
  let t1 := if execution_id ∈ t.active_executions
    then ExecutionTracker.mk t.executed_tasks (t.active_executions.erase execution_id)
    else t
  (decide (t1.active_executions.card = 0), t1)

/-- `count_active` (lines 185-186). -/
def count_active (t : ExecutionTracker) : Nat :=
  t.active_executions.card

end ExecutionTracker

/-- The realtime event's `record` payload as consumed by `handle_execution`
(main.py lines 221-229): `execution.get("id")` is `none` when the key is
absent, and `execution.get("completed")` is truthy or not. -/
structure EventRecord where
  id : ExecId
  completed : Bool
  deriving DecidableEq

/-- `AgentService.handle_execution` (main.py lines 220-232) restricted to its
effect on the tracker: return the updated tracker and whether a dispatch
task was scheduled (`asyncio.create_task(self.process_execution(...))`). -/
def handle_execution (t : ExecutionTracker) (event : EventRecord) :
    ExecutionTracker × Bool :=
  if t.is_executed event.id then (t, false)
  else
    let t1 := t.mark_executed event.id
    if event.completed then (t1, false) else (t1, true)

/-- Delivery of a sequence of realtime events to `handle_execution`,
collecting the identifiers of the dispatches it schedules, in order. -/
def runEvents : ExecutionTracker → List EventRecord → ExecutionTracker × List ExecId
  | t, [] => (t, [])
  | t, ev :: rest =>
    let p := handle_execution t ev
    let q := runEvents p.1 rest
    (q.1, (if p.2 then [ev.id] else []) ++ q.2)

section TrackerLemmas

lemma is_executed_iff (t : ExecutionTracker) (id : ExecId) :
    t.is_executed id = true ↔ id ∈ t.executed_tasks := by
  simp [ExecutionTracker.is_executed]

lemma handle_execution_eq (t : ExecutionTracker) (ev : EventRecord) :
    handle_execution t ev =
      if ev.id ∈ t.executed_tasks then (t, false)
      else (t.mark_executed ev.id, !ev.completed) := by
  unfold handle_execution ExecutionTracker.is_executed
  by_cases h : ev.id ∈ t.executed_tasks
  · simp [h]
  · cases hc : ev.completed <;> simp [h, hc]

lemma handle_executed_mono (t : ExecutionTracker) (ev : EventRecord) :
    t.executed_tasks ⊆ (handle_execution t ev).1.executed_tasks := by
  rw [handle_execution_eq]
  by_cases h : ev.id ∈ t.executed_tasks
  · simp [h]
  · simp [h, ExecutionTracker.mark_executed]

lemma handle_dispatch_marks (t : ExecutionTracker) (ev : EventRecord)
    (h : (handle_execution t ev).2 = true) :
    ev.id ∈ (handle_execution t ev).1.executed_tasks := by
  rw [handle_execution_eq] at h ⊢
  by_cases hm : ev.id ∈ t.executed_tasks
  · simp [hm] at h
  · simp [hm, ExecutionTracker.mark_executed]

lemma handle_no_dispatch_of_executed (t : ExecutionTracker) (ev : EventRecord)
    (h : ev.id ∈ t.executed_tasks) :
    (handle_execution t ev).2 = false := by
  rw [handle_execution_eq]
  simp [h]

lemma handle_active_eq (t : ExecutionTracker) (ev : EventRecord) :
    (handle_execution t ev).1.active_executions = t.active_executions := by
  rw [handle_execution_eq]
  by_cases h : ev.id ∈ t.executed_tasks <;>
    simp [h, ExecutionTracker.mark_executed]

lemma append_errors_merge (x : String) :
    ("\n\n" : String) ++ ("Errors:\n" ++ x) = "\n\nErrors:\n" ++ x := by
  rw [← String.append_assoc] ; rfl

lemma runEvents_no_dispatch_of_executed (evs : List EventRecord) :
    ∀ (t : ExecutionTracker) (id : ExecId), id ∈ t.executed_tasks →
      id ∉ (runEvents t evs).2 := by
  induction evs with
  | nil => intro t id _ ; simp [runEvents]
  | cons ev rest ih =>
    intro t id h
    simp only [runEvents, List.mem_append]
    push_neg
    constructor
    · by_cases hd : (handle_execution t ev).2 = true
      · simp only [hd, if_pos]
        intro hmem
        rcases List.mem_singleton.mp hmem with rfl
        exact absurd (handle_no_dispatch_of_executed t ev h) (by simp [hd])
      · simp [hd]
    · exact ih _ id (handle_executed_mono t ev h)

end TrackerLemmas

/-! ## Sandboxed Runner (`CodeExecutor._run_in_process`, main.py lines 74-118) -/

/-- Result-text composition of `_run_in_process` (main.py lines 92-104):
start from the decoded stdout; when stderr is non-empty append a separated
"Errors:" section; when the exit code is non-zero append a trailing note. -/
def compose_output (stdout_str stderr_str : String) (returncode : Int) : String :=
  let output := stdout_str
  let output :=
    if stderr_str ≠ "" then
      (if output ≠ "" then output ++ "\n\n" else output) ++ "Errors:\n" ++ stderr_str
    else output
  if returncode ≠ 0 then
    output ++ "\n\nProcess exited with code " ++ toString returncode
  else output

/-- Abstract outcome of the spawned child process, the branching data of
`_run_in_process` (main.py lines 90-111): normal completion with captured
streams and exit code, a `subprocess.TimeoutExpired` (carrying whatever the
child had written before the kill, which the code discards), or any other
exception. -/
inductive ProcOutcome where
  | completed (stdout_str stderr_str : String) (returncode : Int)
  | timedOut (partialOut partialErr : String)
  | exn (msg : String)
  deriving DecidableEq

/-- Python's rendering of the `timeout` argument inside the timeout message
f-string (`None` when absent). -/
def fmtTimeout : Option Nat → String
  | some t => toString t
  | none => "None"

/-- Observable effects of one `_run_in_process` invocation. -/
structure RunResult where
  output : String
  killed : Bool
  deleteAttempted : Bool
  deletePropagated : Bool
  fileRemains : Bool
  deriving DecidableEq

/-- `CodeExecutor._run_in_process` (main.py lines 74-118) over an abstract
process outcome. `fileExists` is whether the temporary artifact exists when
the `finally` block runs; `deleteRaises` is whether `os.unlink` raises. The
`finally` block (lines 113-118) attempts deletion whenever the file exists
and swallows any deletion error. -/
def run_in_process (outcome : ProcOutcome) (timeout : Option Nat)
    (fileExists deleteRaises : Bool) : RunResult :=
  let body : String × Bool :=
    match outcome with
    | .completed so se rc => (compose_output so se rc, false)
    | .timedOut _ _ =>
        ("Execution timed out after " ++ fmtTimeout timeout ++ " seconds.", true)
    | .exn m => ("Error executing code: " ++ m, false)
  RunResult.mk body.1 body.2 fileExists false (fileExists && deleteRaises)

/-! ## Shutdown (`AgentService.run`, main.py lines 265-294) -/

/-- Whether a backend call succeeds or raises. -/
inductive WriteOutcome where
  | ok
  | raises
  deriving DecidableEq

/-- Inputs determining the behaviour of the `finally` block of
`AgentService.run` (main.py lines 282-294): whether `self.computer` is set,
whether the subscription succeeded (so `unsubscribe` is in `locals()`), and
the outcomes of the Offline status write and of the `unsubscribe()` call. -/
structure ShutdownEnv where
  computerSet : Bool
  subscribed : Bool
  offlineWrite : WriteOutcome
  unsubCall : WriteOutcome
  deriving DecidableEq

/-- Observable effects of the `finally` block: how many times the Offline
write and the unsubscribe call were attempted, and whether an exception
escaped the block. -/
structure ShutdownTrace where
  offlineAttempts : Nat
  unsubAttempts : Nat
  propagated : Bool
  deriving DecidableEq

/-- The `finally` block of `AgentService.run` (main.py lines 282-294).
The Offline write (`update_computer`, lines 284-287) is not wrapped in any
try/except: when it raises, the rest of the block is skipped and the
exception escapes. The unsubscribe call (lines 289-294) is wrapped in
try/except, so its outcome never escapes. -/
def run_finally (env : ShutdownEnv) : ShutdownTrace :=
  if env.computerSet then
    match env.offlineWrite with
    | .raises => ShutdownTrace.mk 1 0 true
    | .ok =>
        if env.subscribed then ShutdownTrace.mk 1 1 false
        else ShutdownTrace.mk 1 0 false
  else
    if env.subscribed then ShutdownTrace.mk 0 1 false
    else ShutdownTrace.mk 0 0 false

/-! ## Dispatch pipeline (`AgentService.process_execution`, main.py
lines 234-263, and `update_computer_status`, lines 210-218) -/

/-- `AgentService.update_computer_status` (main.py lines 210-218): the
status write is wrapped in try/except, so the call never propagates an
exception, whatever the write's outcome. Returns whether an exception
escapes the call. -/
def update_computer_status (w : WriteOutcome) : Bool :=
  match w with
  | .ok => false
  | .raises => false

/-- Outcomes of the four backend writes `process_execution` can perform, in
program order: the Running status write, the "started" logs write, the
final logs+completed write, and the Idle status write. -/
structure DispatchEnv where
  statusRunningWrite : WriteOutcome
  startedWrite : WriteOutcome
  resultWrite : WriteOutcome
  statusIdleWrite : WriteOutcome
  deriving DecidableEq

/-- Observable control flow of one `process_execution` run: which writes
were attempted, whether `remove_active` was reached, and whether an
exception escaped the coroutine. -/
structure DispatchTrace where
  startedAttempted : Bool
  resultAttempted : Bool
  removeActiveDone : Bool
  propagated : Bool
  deriving DecidableEq

/-- `AgentService.process_execution` (main.py lines 234-263) over a write
environment. The two computer-status writes go through
`update_computer_status` and never abort the pipeline; the two
`update_execution` calls (lines 242-244 and 250-256) are not guarded, so an
exception there escapes the coroutine, skipping everything after it. -/
def process_execution (t : ExecutionTracker) (execution_id : ExecId)
    (env : DispatchEnv) : ExecutionTracker × DispatchTrace :=
  let p1 := t.add_active execution_id
  let t1 := p1.2
  let _ := update_computer_status env.statusRunningWrite
  match env.startedWrite with
  | .raises => (t1, DispatchTrace.mk true false false true)
  | .ok =>
    match env.resultWrite with
    | .raises => (t1, DispatchTrace.mk true true false true)
    | .ok =>
      let p2 := t1.remove_active execution_id
      let _ := update_computer_status env.statusIdleWrite
      (p2.2, DispatchTrace.mk true true true false)

/-! ## Orchestrator state machine (for the Ledger invariant) -/

/-- Orchestrator state: the tracker plus the identifiers of dispatch tasks
that `handle_execution` has scheduled with `asyncio.create_task` but whose
coroutine bodies have not started running yet. -/
structure OrchState where
  tracker : ExecutionTracker
  pending : List ExecId
  deriving DecidableEq

/-- Effect of delivering one realtime event: run `handle_execution`; when it
schedules a dispatch, the scheduled task joins the pending queue. -/
def applyEvent (s : OrchState) (ev : EventRecord) : OrchState :=
  let p := handle_execution s.tracker ev
  OrchState.mk p.1 (if p.2 then s.pending ++ [ev.id] else s.pending)

/-- Atomic steps of the orchestrator: deliver an event to
`handle_execution`; start a scheduled `process_execution` task, whose first
tracker action is `add_active` (main.py line 235); or finish a running
task, whose last tracker action is `remove_active` (line 258). -/
inductive OStep : OrchState → OrchState → Prop where
  | event (s : OrchState) (ev : EventRecord) : OStep s (applyEvent s ev)
  | start (s : OrchState) (id : ExecId) (h : id ∈ s.pending) :
      OStep s (OrchState.mk (s.tracker.add_active id).2 (s.pending.erase id))
  | finish (s : OrchState) (id : ExecId) :
      OStep s (OrchState.mk (s.tracker.remove_active id).2 s.pending)

/-- The agent's initial state: both tracker sets empty, nothing pending. -/
def initState : OrchState :=
  OrchState.mk (ExecutionTracker.mk ∅ ∅) []

/-- States reachable from the initial state by orchestrator steps. -/
def Reachable (s : OrchState) : Prop :=
  Relation.ReflTransGen OStep initState s

/-- The Ledger invariant: every pending dispatch is already marked
executed, and `active ⊆ executed`. -/
def LedgerInv (s : OrchState) : Prop :=
  (∀ id ∈ s.pending, id ∈ s.tracker.executed_tasks) ∧
  ↑s.tracker.active_executions ⊆ ↑s.tracker.executed_tasks

section OrchLemmas

lemma add_active_executed_eq (t : ExecutionTracker) (id : ExecId) :
    (t.add_active id).2.executed_tasks = t.executed_tasks := rfl

lemma add_active_active_eq (t : ExecutionTracker) (id : ExecId) :
    (t.add_active id).2.active_executions = insert id t.active_executions := rfl

lemma remove_active_executed_eq (t : ExecutionTracker) (id : ExecId) :
    (t.remove_active id).2.executed_tasks = t.executed_tasks := by
  unfold ExecutionTracker.remove_active
  by_cases h : id ∈ t.active_executions <;> simp [h]

lemma remove_active_fst_eq (t : ExecutionTracker) (id : ExecId) :
    (t.remove_active id).1 = decide ((t.active_executions.erase id).card = 0) := by
  unfold ExecutionTracker.remove_active
  by_cases h : id ∈ t.active_executions
  · simp [h]
  · simp [h, Finset.erase_eq_of_not_mem h]

lemma remove_active_active_subset (t : ExecutionTracker) (id : ExecId) :
    (t.remove_active id).2.active_executions ⊆ t.active_executions := by
  unfold ExecutionTracker.remove_active
  by_cases h : id ∈ t.active_executions <;> simp [h, Finset.erase_subset]

lemma ostep_executed_mono {s s' : OrchState} (h : OStep s s') :
    s.tracker.executed_tasks ⊆ s'.tracker.executed_tasks := by
  cases h with
  | event ev => exact handle_executed_mono s.tracker ev
  | start id hm => rw [add_active_executed_eq]
  | finish id => rw [remove_active_executed_eq]

lemma ostep_preserves_inv {s s' : OrchState}
    (hinv : LedgerInv s) (h : OStep s s') : LedgerInv s' := by
  obtain ⟨hpend, hact⟩ := hinv
  cases h with
  | event ev =>
    refine ⟨?_, ?_⟩
    · intro id hid
      simp only [applyEvent] at hid
      by_cases hd : (handle_execution s.tracker ev).2 = true
      · simp only [hd, if_pos, List.mem_append, List.mem_singleton] at hid
        rcases hid with hid | rfl
        · exact handle_executed_mono s.tracker ev (hpend id hid)
        · exact handle_dispatch_marks s.tracker ev hd
      · rw [Bool.not_eq_true] at hd
        simp [hd] at hid
        exact handle_executed_mono s.tracker ev (hpend id hid)
    · simp only [applyEvent]
      rw [handle_active_eq]
      exact fun x hx =>
        handle_executed_mono s.tracker ev (hact hx)
  | start id hm =>
    refine ⟨?_, ?_⟩
    · intro i hi
      rw [add_active_executed_eq]
      exact hpend i (List.mem_of_mem_erase hi)
    · intro x hx
      rw [add_active_active_eq] at hx
      rw [add_active_executed_eq]
      rcases Finset.mem_insert.mp (by exact_mod_cast hx) with rfl | hx'
      · exact hpend x hm
      · exact hact hx'
  | finish id =>
    refine ⟨?_, ?_⟩
    · intro i hi
      rw [remove_active_executed_eq]
      exact hpend i hi
    · intro x hx
      rw [remove_active_executed_eq]
      exact hact (remove_active_active_subset s.tracker id (by exact_mod_cast hx))

lemma reachable_inv {s : OrchState} (h : Reachable s) : LedgerInv s := by
  unfold Reachable at h
  induction h with
  | refl => exact ⟨by simp [initState], by simp [initState]⟩
  | tail _ hstep ih => exact ostep_preserves_inv ih hstep

end OrchLemmas

/-! ## Claims -/

/-- C1 (counterexample): in `run`'s `finally` block, when the computer is
set and the subscription is active, an Offline status write that raises
leaves the unsubscribe unattempted — the claim's "independently guarded"
fails, since the Offline write is not wrapped in try/except. -/
theorem run_finally_counterexample :
    (run_finally (ShutdownEnv.mk true true WriteOutcome.raises WriteOutcome.ok)).offlineAttempts = 1 ∧
    (run_finally (ShutdownEnv.mk true true WriteOutcome.raises WriteOutcome.ok)).unsubAttempts = 0 ∧
    (run_finally (ShutdownEnv.mk true true WriteOutcome.raises WriteOutcome.ok)).propagated = true :=
  ⟨rfl, rfl, rfl⟩

/-- C1 (amended): on termination the `finally` block attempts the Offline
write exactly once when the computer record is set (never otherwise), and
attempts the unsubscribe exactly once when the subscription was established
and the Offline write did not raise; a failure of the unsubscribe call is
caught and changes nothing, but a failure of the Offline write skips the
unsubscribe and escapes the block. -/
theorem run_finally_characterization (env : ShutdownEnv) :
    (run_finally env).offlineAttempts = (if env.computerSet then 1 else 0) ∧
    ((run_finally env).unsubAttempts =
      if env.computerSet = true ∧ env.offlineWrite = WriteOutcome.raises then 0
      else if env.subscribed then 1 else 0) ∧
    ((run_finally env).propagated = true ↔
      (env.computerSet = true ∧ env.offlineWrite = WriteOutcome.raises)) ∧
    run_finally env =
      run_finally (ShutdownEnv.mk env.computerSet env.subscribed env.offlineWrite WriteOutcome.ok) := by
  rcases env with ⟨cs, sub, ow, uc⟩
  cases cs <;> cases sub <;> cases ow <;> cases uc <;> simp [run_finally]

/-- C2 (counterexample): `remove_active` on an already-empty active set
returns `True` (it returns emptiness after removal), while the claim
predicts `False` there: the claimed equivalence fails at the empty tracker
with identifier "a". -/
theorem remove_active_counterexample :
    ¬(((ExecutionTracker.mk ∅ ∅).remove_active (some "a")).1 = true ↔
      ((some "a" : ExecId) ∈ (ExecutionTracker.mk ∅ ∅).active_executions ∧
       (ExecutionTracker.mk ∅ ∅).active_executions.erase (some "a") = ∅ ∧
       (ExecutionTracker.mk ∅ ∅).active_executions ≠ ∅)) := by
  decide

/-- C2 (amended): for every Ledger state and identifier, `remove_active id`
returns true iff the active set is empty immediately after the call, i.e.
iff `active.erase id = ∅` — including when the active set was already empty
or the identifier was absent. -/
theorem remove_active_true_iff_empty_after (t : ExecutionTracker) (id : ExecId) :
    (t.remove_active id).1 = true ↔ t.active_executions.erase id = ∅ := by
  rw [remove_active_fst_eq, decide_eq_true_eq]
  exact Finset.card_eq_zero

/-- C3 (counterexample): when the "started" progress-marker write raises,
`process_execution` aborts — the final result write and the `remove_active`
step are not attempted and the exception escapes the coroutine, contrary to
the claim that backend-update exceptions never abort the pipeline. -/
theorem process_execution_counterexample :
    ((process_execution (ExecutionTracker.mk ∅ ∅) (some "e1")
        (DispatchEnv.mk WriteOutcome.ok WriteOutcome.raises WriteOutcome.ok WriteOutcome.ok)).2.resultAttempted
      = false) ∧
    ((process_execution (ExecutionTracker.mk ∅ ∅) (some "e1")
        (DispatchEnv.mk WriteOutcome.ok WriteOutcome.raises WriteOutcome.ok WriteOutcome.ok)).2.removeActiveDone
      = false) ∧
    ((process_execution (ExecutionTracker.mk ∅ ∅) (some "e1")
        (DispatchEnv.mk WriteOutcome.ok WriteOutcome.raises WriteOutcome.ok WriteOutcome.ok)).2.propagated
      = true) :=
  ⟨rfl, rfl, rfl⟩

/-- C3 (amended): only the computer-status writes are guarded: failures of
the Running/Idle status writes never change the pipeline's control flow,
but the execution-record writes are unguarded — the result write is
attempted iff the "started" write did not raise, `remove_active` runs iff
both execution-record writes succeeded, and an exception escapes iff one of
the two execution-record writes raised. -/
theorem process_execution_write_guards (t : ExecutionTracker) (id : ExecId)
    (env : DispatchEnv) :
    ((process_execution t id env).2.startedAttempted = true) ∧
    ((process_execution t id env).2.resultAttempted = true ↔
      env.startedWrite = WriteOutcome.ok) ∧
    ((process_execution t id env).2.removeActiveDone = true ↔
      (env.startedWrite = WriteOutcome.ok ∧ env.resultWrite = WriteOutcome.ok)) ∧
    ((process_execution t id env).2.propagated = true ↔
      (env.startedWrite = WriteOutcome.raises ∨ env.resultWrite = WriteOutcome.raises)) ∧
    (process_execution t id env).2 =
      (process_execution t id
        (DispatchEnv.mk WriteOutcome.ok env.startedWrite env.resultWrite WriteOutcome.ok)).2 := by
  rcases env with ⟨a, b, c, d⟩
  cases a <;> cases b <;> cases c <;> cases d <;> simp [process_execution]

/-- C4: over any sequence of delivered events and from any tracker state,
each identifier is dispatched at most once for the lifetime of the process:
`handle_execution` marks the identifier in `executed_tasks` before
scheduling, so every later event carrying it is rejected. -/
theorem handle_execution_at_most_one_dispatch (t : ExecutionTracker)
    (evs : List EventRecord) (id : ExecId) :
    (runEvents t evs).2.count id ≤ 1 := by
  induction evs generalizing t with
  | nil => simp [runEvents]
  | cons ev rest ih =>
    simp only [runEvents, List.count_append]
    by_cases hd : (handle_execution t ev).2 = true
    · simp only [hd, if_true, List.count_append]
      by_cases hid : ev.id = id
      · subst hid
        have h0 : ev.id ∉ (runEvents (handle_execution t ev).1 rest).2 :=
          runEvents_no_dispatch_of_executed rest _ _ (handle_dispatch_marks t ev hd)
        have h1 : (runEvents (handle_execution t ev).1 rest).2.count ev.id = 0 :=
          List.count_eq_zero.mpr h0
        simp [h1]
      · have h2 : List.count id [ev.id] = 0 :=
          List.count_eq_zero.mpr
            (by simp only [List.mem_singleton]; exact fun hh => hid hh.symm)
        rw [h2]
        simpa using ih _
    · rw [Bool.not_eq_true] at hd
      simp only [hd, Bool.false_eq_true, if_false, List.count_nil]
      simpa using ih _

/-- C5: an event whose `completed` flag is true never schedules a dispatch,
whatever the tracker's prior state; the handler still leaves the identifier
marked in `executed_tasks`. -/
theorem handle_execution_completed_no_dispatch (t : ExecutionTracker) (id : ExecId) :
    (handle_execution t (EventRecord.mk id true)).2 = false ∧
    id ∈ (handle_execution t (EventRecord.mk id true)).1.executed_tasks := by
  rw [handle_execution_eq]
  by_cases h : id ∈ t.executed_tasks <;> simp [h, ExecutionTracker.mark_executed]

/-- C6: the runner's result text is the captured stdout, then — when stderr
is non-empty — a blank-line-separated "Errors:" section with the stderr
content, then — when the exit code is non-zero — a trailing note reporting
that exit code; in particular a silent successful run returns exactly the
stdout text. -/
theorem compose_output_composition (so se : String) (rc : Int) :
    compose_output so se rc =
      so ++ ((if se = "" then "" else (if so = "" then "" else "\n\n") ++ ("Errors:\n" ++ se)) ++
        (if rc = 0 then "" else "\n\nProcess exited with code " ++ toString rc)) ∧
    compose_output so "" 0 = so := by
  constructor
  · unfold compose_output
    by_cases hse : se = "" <;> by_cases hso : so = "" <;> by_cases hrc : rc = 0 <;>
      simp [hse, hso, hrc, String.append_assoc, String.append_empty,
        String.empty_append] <;>
      rw [append_errors_merge]
  · simp [compose_output]

/-- C7: when the child process exceeds the timeout, it is killed and the
returned result is exactly the descriptive message naming the timeout
duration; the output captured before the kill does not influence the
result at all. -/
theorem run_in_process_timeout_policy (po pe : String) (t : Nat) (fe dr : Bool) :
    (run_in_process (ProcOutcome.timedOut po pe) (some t) fe dr).output =
      "Execution timed out after " ++ toString t ++ " seconds." ∧
    (run_in_process (ProcOutcome.timedOut po pe) (some t) fe dr).killed = true ∧
    run_in_process (ProcOutcome.timedOut po pe) (some t) fe dr =
      run_in_process (ProcOutcome.timedOut "" "") (some t) fe dr :=
  ⟨rfl, rfl, rfl⟩

/-- C8: on every exit path of `_run_in_process` (normal completion, timeout,
exception), deletion of the temporary artifact is attempted exactly when the
file exists, a deletion failure never propagates to the caller, and the file
remains on disk only when it existed and the deletion itself raised. -/
theorem run_in_process_cleanup (outcome : ProcOutcome) (timeout : Option Nat)
    (fe dr : Bool) :
    (run_in_process outcome timeout fe dr).deleteAttempted = fe ∧
    (run_in_process outcome timeout fe dr).deletePropagated = false ∧
    (run_in_process outcome timeout fe dr).fileRemains = (fe && dr) :=
  ⟨rfl, rfl, rfl⟩

/-- C9: in every reachable orchestrator state the Ledger satisfies
`active ⊆ executed`, and `executed_tasks` only ever grows: no orchestrator
step removes an identifier from it. -/
theorem ledger_invariant_reachable (s : OrchState) (h : Reachable s) :
    s.tracker.active_executions ⊆ s.tracker.executed_tasks ∧
    ∀ s', OStep s s' → s.tracker.executed_tasks ⊆ s'.tracker.executed_tasks :=
  ⟨Finset.coe_subset.mp (reachable_inv h).2, fun _ hs => ostep_executed_mono hs⟩

theorem ledger_invariant_reachable_witness :
    Reachable initState ∧
    (initState.tracker.active_executions ⊆ initState.tracker.executed_tasks ∧
     ∀ s', OStep initState s' →
       initState.tracker.executed_tasks ⊆ s'.tracker.executed_tasks) :=
  ⟨Relation.ReflTransGen.refl,
   ledger_invariant_reachable initState Relation.ReflTransGen.refl⟩

/-- C10: an identifier-less event is handled with the extracted `none`
identifier: the first such non-completed event is dispatched (with the null
identifier, which is marked in `executed_tasks`), and afterwards no event
sequence ever produces another null-identifier dispatch. -/
theorem handle_execution_null_id_dedup (t : ExecutionTracker)
    (h : (none : ExecId) ∉ t.executed_tasks) (evs : List EventRecord) :
    (handle_execution t (EventRecord.mk none false)).2 = true ∧
    (none : ExecId) ∈ (handle_execution t (EventRecord.mk none false)).1.executed_tasks ∧
    (none : ExecId) ∉ (runEvents (handle_execution t (EventRecord.mk none false)).1 evs).2 := by
  have h1 : (handle_execution t (EventRecord.mk none false)).2 = true := by
    rw [handle_execution_eq] ; simp [h]
  have h2 := handle_dispatch_marks t (EventRecord.mk none false) h1
  exact ⟨h1, h2, runEvents_no_dispatch_of_executed evs _ _ h2⟩

theorem handle_execution_null_id_dedup_witness :
    (none : ExecId) ∉ (ExecutionTracker.mk ∅ ∅).executed_tasks ∧
    ((handle_execution (ExecutionTracker.mk ∅ ∅) (EventRecord.mk none false)).2 = true ∧
     (none : ExecId) ∈
       (handle_execution (ExecutionTracker.mk ∅ ∅) (EventRecord.mk none false)).1.executed_tasks ∧
     (none : ExecId) ∉
       (runEvents (handle_execution (ExecutionTracker.mk ∅ ∅) (EventRecord.mk none false)).1
         [EventRecord.mk none false, EventRecord.mk none true]).2) :=
  ⟨by decide,
   handle_execution_null_id_dedup (ExecutionTracker.mk ∅ ∅) (by decide)
     [EventRecord.mk none false, EventRecord.mk none true]⟩
